import Mathlib

/-!
Verification of the CSV merger (`src/merger.py`).

A pandas `DataFrame` is shallowly embedded as an ordered list of named
columns, each column a list of cells; a cell is `Option String` where
`none` models a missing value (NaN).  Filesystem objects are embedded as
explicit data (file entries carry either a parsed table or a parse
failure), and the stateful pieces of the program (the per-class loop, the
run driver, in-place column assignment on the accumulating result) are
embedded as pure state-passing functions, plus an explicit store for the
aliasing/mutation claim.
-/

set_option autoImplicit false

namespace Merger

/-! ## Name utilities (`utils.py`, not present under `src/`) -/

/-- Bool test: the first char list occurs at the head of the second. -/
def matchAt : List Char → List Char → Bool
  | [], _ => true
  | _ :: _, [] => false
  | a :: as, b :: bs => a == b && matchAt as bs

/-- Bool test: the first char list occurs somewhere inside the second. -/
def matchSomewhere (needle : List Char) : List Char → Bool
  | [] => matchAt needle []
  | b :: bs => matchAt needle (b :: bs) || matchSomewhere needle bs

/-- Character-wise lowercasing of a string's characters. -/
def lowerChars (cs : List Char) : List Char := cs.map Char.toLower

/-- Modelled from the spec: `utils.find_matching_column` is imported by
`merger.py` but the `utils` module is not under `src/`.  Per spec §4.1 it
returns the first column name whose lowercase form contains the role
keyword as a substring, or `none` if no column matches. -/
def find_matching_column (keyword : String) (columns : List String) : Option String :=
  columns.find? (fun c => matchSomewhere keyword.data (lowerChars c.data))

/-- Longest leading run of digit characters. -/
def takeDigits : List Char → List Char
  | [] => []
  | c :: cs => if c.isDigit then c :: takeDigits cs else []

/-- Decimal value of a digit-character list. -/
def digitsVal (cs : List Char) : Nat :=
  cs.foldl (fun acc c => acc * 10 + (c.toNat - 48)) 0

/-- Scan a (lower-cased) char list for the marker `ex` followed by at
least one digit; return the decimal value of the digit run. -/
def exScan : List Char → Option Nat
  | [] => none
  | c0 :: rest =>
    if c0 = 'e' then
      match rest with
      | 'x' :: c :: _ => if c.isDigit then some (digitsVal (takeDigits rest.tail)) else exScan rest
      | _ => exScan rest
    else exScan rest

/-- Modelled from the spec: `utils.extract_ex_number` is imported by
`merger.py` but the `utils` module is not under `src/`.  Per spec §4.1 it
scans a filename for a numeric token following the case-insensitive
marker `Ex` and returns the integer if found, else `none`; absence is a
valid outcome, never an error. -/
def extract_ex_number (filename : String) : Option Nat :=
  exScan (lowerChars filename.data)

/-! ## DataFrame embedding -/

/-- A pandas DataFrame: ordered named columns of cells. -/
structure DataFrame where
  cols : List (String × List (Option String))
deriving Repr, DecidableEq

/-- The empty DataFrame, `pd.DataFrame()`. -/
def DataFrame.empty : DataFrame := ⟨[]⟩

/-- The ordered column names, `df.columns`. -/
def DataFrame.colNames (df : DataFrame) : List String := df.cols.map Prod.fst

/-- Row count `len(df)`: length of the index, i.e. of the first column
(pandas keeps all columns the same length). -/
def DataFrame.nRows (df : DataFrame) : Nat :=
  match df.cols with
  | [] => 0
  | c :: _ => c.2.length

/-- Column count `len(df.columns)`. -/
def DataFrame.nCols (df : DataFrame) : Nat := df.cols.length

/-- Pandas `df.empty`: true when either axis has length zero. -/
def DataFrame.isEmpty (df : DataFrame) : Bool :=
  df.nRows = 0 || df.nCols = 0

/-- Values of a named column, `df[name]` (the merge only reads columns
that were found by name, so the missing-name case is irrelevant and
returns `[]`). -/
def DataFrame.getCol (df : DataFrame) (n : String) : List (Option String) :=
  match df.cols.find? (fun c => c.1 = n) with
  | some c => c.2
  | none => []

/-- Positional (index) alignment of assigned values to an index of length
`n`: pandas keeps the first `n` values and pads missing positions with
NaN. -/
def alignTo (n : Nat) (v : List (Option String)) : List (Option String) :=
  (List.range n).map (fun i => v.getD i none)

/-- Pandas column assignment `df[n] = v`: overwrite the column in place
when the name exists, else append it at the end; values are aligned to
the frame's index. -/
def DataFrame.setCol (df : DataFrame) (n : String) (v : List (Option String)) : DataFrame :=
  if n ∈ df.colNames then
    ⟨df.cols.map (fun c => if c.1 = n then (n, alignTo df.nRows v) else c)⟩
  else
    ⟨df.cols ++ [(n, alignTo df.nRows v)]⟩

/-! ## Merge algorithm (`CSVMerger.merge_dataframes`, src/merger.py:84-137) -/

/-- Suffix derivation, src/merger.py:116-117: Python truthiness of
`ex_num` sends both `None` and `0` to the positional fallback. -/
def suffixFor (file_name : String) (idx : Nat) : String :=
  match extract_ex_number file_name with
  | some n => if n = 0 then "_" ++ Nat.repr idx else "_Ex" ++ Nat.repr n
  | none => "_" ++ Nat.repr idx

/-- Python dict assignment `d[k] = v` on an insertion-ordered dict:
update in place when the key exists, else append. -/
def dictInsert (d : List (String × String)) (k v : String) : List (String × String) :=
  if d.any (fun p => p.1 = k) then d.map (fun p => if p.1 = k then (k, v) else p)
  else d ++ [(k, v)]

/-- Conditional dict assignment guarded on the option being present
(`if x_col: columns_to_add[x_col] = ...`, src/merger.py:126-131;
`find_matching_column` never returns an empty string, so Python
truthiness of the column name coincides with presence). -/
def optInsert (d : List (String × String)) (o : Option String) (v : String) :
    List (String × String) :=
  match o with
  | some c => dictInsert d c v
  | none => d

/-- The `columns_to_add` dict of src/merger.py:119-131 for one subsequent
table: renames for the x, y, z role columns, in that insertion order. -/
def build_columns_to_add (df : DataFrame) (suffix : String) : List (String × String) :=
  optInsert (optInsert (optInsert []
    (find_matching_column "x" df.colNames) ("X" ++ suffix))
    (find_matching_column "y" df.colNames) ("Y" ++ suffix))
    (find_matching_column "z" df.colNames) ("Z" ++ suffix)

/-- One iteration of the merge loop body, src/merger.py:114-135. -/
def mergeStep (df : DataFrame) (file_name : String) (idx : Nat) (result : DataFrame) :
    DataFrame :=
  (build_columns_to_add df (suffixFor file_name idx)).foldl
    (fun r p => r.setCol p.2 (df.getCol p.1)) result

/-- The merge loop over `zip(dfs[1:], file_names[1:])` with
`enumerate(..., start=2)`, src/merger.py:114. -/
def mergeLoop : List (DataFrame × String) → Nat → DataFrame → DataFrame
  | [], _, result => result
  | (df, fn) :: rest, idx, result => mergeLoop rest (idx + 1) (mergeStep df fn idx result)

/-- `CSVMerger.merge_dataframes`, src/merger.py:84-137. -/
def merge_dataframes (dfs : List DataFrame) (file_names : List String) : DataFrame :=
  match dfs with
  | [] => DataFrame.empty
  | first :: rest =>
    match find_matching_column "channel" first.colNames with
    | none => DataFrame.empty
    | some _ => mergeLoop (rest.zip (file_names.drop 1)) 2 first

/-! ## Safe CSV loading and the class processor
(`CSVMerger.read_csv_safely`, src/merger.py:65-82;
 `CSVMerger.process_class`, src/merger.py:139-204) -/

/-- One CSV file on disk: its name, and either the table `pd.read_csv`
parses from it (`some`) or a parse failure (`none`, modelling any
exception raised while reading). -/
structure FileEntry where
  name : String
  content : Option DataFrame
deriving Repr, DecidableEq

/-- `CSVMerger.read_csv_safely`, src/merger.py:65-82: the `try/except`
returns the parsed table with `True`, or an empty table with `False` on
any exception (a warning is printed; nothing propagates). -/
def read_csv_safely (f : FileEntry) : DataFrame × Bool :=
  match f.content with
  | some df => (df, true)
  | none => (DataFrame.empty, false)

/-- Per-file descriptor appended to `metadata['files']`,
src/merger.py:183-188. -/
structure FileInfo where
  name : String
  ex_number : Option Nat
  rows : Nat
  columns : Nat
deriving Repr, DecidableEq

/-- The per-class metadata dict.  `total_rows`/`total_columns` are
`Option Nat`: `none` models the dict key being absent (the early return
at src/merger.py:158 builds a dict without those keys). -/
structure ClassMetadata where
  className : String
  files : List FileInfo
  total_rows : Option Nat
  total_columns : Option Nat
  merged_df : DataFrame
deriving Repr, DecidableEq

/-- The read loop of src/merger.py:172-188: files whose read succeeds
contribute their table, name and descriptor, in order; failed files are
skipped. -/
def loadLoop : List FileEntry → List DataFrame × List String × List FileInfo
  | [] => ([], [], [])
  | f :: rest =>
    let r := read_csv_safely f
    let t := loadLoop rest
    if r.2 then
      (r.1 :: t.1, f.name :: t.2.1,
        ⟨f.name, extract_ex_number f.name, r.1.nRows, r.1.nCols⟩ :: t.2.2)
    else t

/-- `CSVMerger.process_class`, src/merger.py:139-204, on the naturally
sorted CSV file list of one class folder. -/
def process_class (cname : String) (files : List FileEntry) : ClassMetadata :=
  if files.isEmpty then
    ⟨cname, [], none, none, DataFrame.empty⟩
  else
    let t := loadLoop files
    if t.1.isEmpty then
      ⟨cname, t.2.2, some 0, some 0, DataFrame.empty⟩
    else
      let merged := merge_dataframes t.1 t.2.1
      ⟨cname, t.2.2, some merged.nRows, some merged.nCols, merged⟩

/-! ## Summary and run driver
(`CSVMerger.print_summary`, src/merger.py:249-271;
 `CSVMerger.run`, src/merger.py:206-247) -/

/-- Reading the totals of one class in `print_summary`,
src/merger.py:263-264: `meta['total_rows']` on a dict missing the key
raises `KeyError`. -/
def summarizeClass (m : ClassMetadata) : Except String (Nat × Nat) :=
  match m.total_rows with
  | none => Except.error "KeyError: total_rows"
  | some tr =>
    match m.total_columns with
    | none => Except.error "KeyError: total_columns"
    | some tc => Except.ok (tr, tc)

/-- `CSVMerger.print_summary`, src/merger.py:249-271: reports each
class's file count and totals in order; a `KeyError` aborts the whole
summary (and hence the run, since nothing catches it). -/
def print_summary : List ClassMetadata → Except String (List (String × Nat × Nat))
  | [] => Except.ok []
  | m :: rest =>
    match summarizeClass m with
    | Except.error e => Except.error e
    | Except.ok tot =>
      match print_summary rest with
      | Except.error e => Except.error e
      | Except.ok others => Except.ok ((m.className, tot.1, tot.2) :: others)

/-- Bool string order used to model Python `sorted` on class paths. -/
def charListLe : List Char → List Char → Bool
  | [], _ => true
  | _ :: _, [] => false
  | a :: as, b :: bs =>
    if a = b then charListLe as bs else decide (a.toNat < b.toNat)

/-- Stable insertion used to model Python `sorted(class_folders)`. -/
def insertSorted (x : String × List FileEntry) :
    List (String × List FileEntry) → List (String × List FileEntry)
  | [] => [x]
  | y :: ys => if charListLe x.1.data y.1.data then x :: y :: ys else y :: insertSorted x ys

/-- Python `sorted(class_folders)` of src/merger.py:236 (alphabetical
processing order). -/
def sortClasses : List (String × List FileEntry) → List (String × List FileEntry)
  | [] => []
  | x :: xs => insertSorted x (sortClasses xs)

/-- `output_dir.mkdir(exist_ok=True)`, src/merger.py:220. -/
def mkdir_exist_ok (dirs : List String) (d : String) : List String :=
  if d ∈ dirs then dirs else d :: dirs

/-- The class loop of src/merger.py:235-244: metadata is accumulated for
every class; an output file named `<class>_merged.csv` holding the
merged table is written exactly when the merged table is not empty. -/
def runLoop : List (String × List FileEntry) → List ClassMetadata × List (String × DataFrame)
  | [] => ([], [])
  | (cname, files) :: rest =>
    let m := process_class cname files
    let t := runLoop rest
    (m :: t.1, if m.merged_df.isEmpty then t.2 else (cname ++ "_merged.csv", m.merged_df) :: t.2)

/-- `CSVMerger.run`, src/merger.py:206-247.  `dirs` is the set of
existing directories; `"outputs"` stands for the default
`project_dir/'outputs'` location.  Returns the directories after the
`mkdir`, the written files, and the summary (`none` when the early
return at src/merger.py:228-230 fires because no class folder exists). -/
def run (dirs : List String) (output_dir : Option String)
    (classes : List (String × List FileEntry)) :
    List String × List (String × DataFrame) ×
      Option (Except String (List (String × Nat × Nat))) :=
  let od := output_dir.getD "outputs"
  let dirs1 := mkdir_exist_ok dirs od
  if classes.isEmpty then (dirs1, [], none)
  else
    let t := runLoop (sortClasses classes)
    (dirs1, t.2, some (print_summary t.1))

/-! ## Constructor (`CSVMerger.__init__`, src/merger.py:21-37) -/

/-- What the configured root path is on disk. -/
inductive PathKind
  | missing
  | file
  | dir
deriving Repr, DecidableEq

/-- The two constructor failures (`FileNotFoundError`,
`NotADirectoryError`). -/
inductive InitError
  | rootNotFound
  | rootNotADirectory
deriving Repr, DecidableEq

/-- The filesystem as the constructor and driver see it: the kind of the
root path, and the class folders under it. -/
structure Filesystem where
  rootKind : PathKind
  classes : List (String × List FileEntry)
deriving Repr, DecidableEq

/-- `path.exists()` for the root. -/
def path_exists : PathKind → Bool
  | PathKind.missing => false
  | _ => true

/-- `path.is_dir()` for the root. -/
def path_is_dir : PathKind → Bool
  | PathKind.dir => true
  | _ => false

/-- `CSVMerger.__init__`, src/merger.py:21-37: validates the root path
and nothing else. -/
def CSVMerger_init (fs : Filesystem) : Except InitError Unit :=
  if path_exists fs.rootKind then
    if path_is_dir fs.rootKind then Except.ok () else Except.error InitError.rootNotADirectory
  else Except.error InitError.rootNotFound

/-! ## Store-passing embedding of the merge
(for the frame/aliasing claim about `merge_dataframes`).

DataFrames live in a store of mutable cells; `dfs[0].copy()` allocates a
fresh cell seeded with the first table's value, and every column
assignment `result[...] = ...` mutates only that fresh cell. -/

/-- A heap of DataFrame objects, indexed by allocation order. -/
structure Store where
  dfs : List DataFrame
deriving Repr, DecidableEq

/-- Dereference (out-of-range reads give the empty frame; the merge only
dereferences live references). -/
def Store.get (s : Store) (i : Nat) : DataFrame := s.dfs.getD i DataFrame.empty

/-- Allocate a fresh object, returning its reference. -/
def Store.alloc (s : Store) (df : DataFrame) : Store × Nat :=
  (⟨s.dfs ++ [df]⟩, s.dfs.length)

/-- In-place update of one object. -/
def Store.setAt (s : Store) (i : Nat) (df : DataFrame) : Store :=
  ⟨s.dfs.set i df⟩

/-- The merge loop of src/merger.py:114-135 on the store: each iteration
reads the subsequent table and mutates only the result object. -/
def mergeLoop_st (resRef : Nat) : List (Nat × String) → Nat → Store → Store
  | [], _, s => s
  | (dref, fn) :: rest, idx, s =>
    mergeLoop_st resRef rest (idx + 1)
      (s.setAt resRef (mergeStep (s.get dref) fn idx (s.get resRef)))

/-- `CSVMerger.merge_dataframes` on the store: takes references to the
loaded tables, allocates the result (`dfs[0].copy()` — or a fresh empty
frame on the early returns) and gives back the new store and the
result's reference. -/
def merge_dataframes_st (store : Store) (refs : List Nat) (fns : List String) :
    Store × Nat :=
  match refs with
  | [] => store.alloc DataFrame.empty
  | r0 :: rrest =>
    let first := store.get r0
    match find_matching_column "channel" first.colNames with
    | none => store.alloc DataFrame.empty
    | some _ =>
      let a := store.alloc first
      (mergeLoop_st a.2 (rrest.zip (fns.drop 1)) 2 a.1, a.2)

/-! ## Helper lemmas -/

theorem alignTo_length (n : Nat) (v : List (Option String)) : (alignTo n v).length = n := by
  simp [alignTo]

theorem setCol_nRows (df : DataFrame) (n : String) (v : List (Option String)) :
    (df.setCol n v).nRows = df.nRows := by
  unfold DataFrame.setCol
  split
  · cases hc : df.cols with
    | nil => simp [DataFrame.nRows, hc]
    | cons c cs =>
      simp only [DataFrame.nRows, hc, List.map_cons]
      split
      · simp [alignTo_length, DataFrame.nRows, hc]
      · rfl
  · cases hc : df.cols with
    | nil => simp [DataFrame.nRows, hc, alignTo_length]
    | cons c cs => simp [DataFrame.nRows, hc]

theorem setCol_colNames_of_not_mem {df : DataFrame} {n : String}
    (v : List (Option String)) (h : n ∉ df.colNames) :
    (df.setCol n v).colNames = df.colNames ++ [n] := by
  unfold DataFrame.setCol
  rw [if_neg h]
  simp [DataFrame.colNames]

theorem setCol_names_sub {df : DataFrame} {n : String} {v : List (Option String)}
    {m : String} (hm : m ∈ (df.setCol n v).colNames) : m ∈ df.colNames ∨ m = n := by
  unfold DataFrame.setCol at hm
  split at hm
  · simp only [DataFrame.colNames, List.map_map, List.mem_map, Function.comp] at hm
    obtain ⟨c, hc, hce⟩ := hm
    by_cases h1 : c.1 = n
    · right
      rw [← hce]
      simp [h1]
    · left
      rw [← hce]
      simp only [h1, if_false]
      exact List.mem_map_of_mem _ hc
  · simp only [DataFrame.colNames, List.map_append, List.mem_append] at hm
    rcases hm with h | h
    · exact Or.inl h
    · right
      simpa using h

theorem find?_fst_update (cols : List (String × List (Option String))) (n : String)
    (w : List (Option String)) (h : n ∈ cols.map Prod.fst) :
    (cols.map (fun c => if c.1 = n then (n, w) else c)).find? (fun c => c.1 = n) =
      some (n, w) := by
  induction cols with
  | nil => simp at h
  | cons c cs ih =>
    by_cases h1 : c.1 = n
    · simp [List.find?, h1]
    · have h2 : n ∈ cs.map Prod.fst := by
        rw [List.map_cons, List.mem_cons] at h
        rcases h with h' | h'
        · exact absurd h'.symm h1
        · exact h'
      simp [List.find?, h1, ih h2]

theorem find?_fst_append_not_mem (cols : List (String × List (Option String)))
    (n : String) (w : List (Option String)) (h : n ∉ cols.map Prod.fst) :
    ((cols ++ [(n, w)]).find? (fun c => c.1 = n)) = some (n, w) := by
  induction cols with
  | nil => simp [List.find?]
  | cons c cs ih =>
    have h1 : ¬ c.1 = n := fun e => h (by simp [← e])
    have h2 : n ∉ cs.map Prod.fst := fun hm => h (by simp [hm])
    simp [List.find?, h1, ih h2]

theorem getCol_setCol (df : DataFrame) (n : String) (v : List (Option String)) :
    (df.setCol n v).getCol n = alignTo df.nRows v := by
  unfold DataFrame.setCol
  split
  · rename_i h
    simp only [DataFrame.colNames] at h
    simp [DataFrame.getCol, find?_fst_update _ _ _ h]
  · rename_i h
    simp only [DataFrame.colNames] at h
    simp [DataFrame.getCol, find?_fst_append_not_mem _ _ _ h]

theorem foldl_setCol_nRows (d : List (String × String)) (g : String → List (Option String))
    (r : DataFrame) :
    (d.foldl (fun acc p => acc.setCol p.2 (g p.1)) r).nRows = r.nRows := by
  induction d generalizing r with
  | nil => rfl
  | cons p d ih => simp [List.foldl_cons, ih, setCol_nRows]

theorem mergeStep_nRows (df : DataFrame) (fn : String) (idx : Nat) (r : DataFrame) :
    (mergeStep df fn idx r).nRows = r.nRows :=
  foldl_setCol_nRows _ _ _

theorem mergeLoop_nRows (ps : List (DataFrame × String)) (idx : Nat) (r : DataFrame) :
    (mergeLoop ps idx r).nRows = r.nRows := by
  induction ps generalizing idx r with
  | nil => rfl
  | cons p ps ih =>
    cases p with
    | mk df fn => rw [mergeLoop, ih, mergeStep_nRows]

theorem foldl_setCol_names_sub (d : List (String × String))
    (g : String → List (Option String)) (r : DataFrame) (m : String)
    (hm : m ∈ (d.foldl (fun acc p => acc.setCol p.2 (g p.1)) r).colNames) :
    m ∈ r.colNames ∨ ∃ p ∈ d, m = p.2 := by
  induction d generalizing r with
  | nil => exact Or.inl hm
  | cons p d ih =>
    rcases ih (r.setCol p.2 (g p.1)) (by simpa using hm) with h | h
    · rcases setCol_names_sub h with h' | h'
      · exact Or.inl h'
      · exact Or.inr ⟨p, by simp, h'⟩
    · obtain ⟨q, hq, he⟩ := h
      exact Or.inr ⟨q, by simp [hq], he⟩

theorem dictInsert_snd {d : List (String × String)} {k v : String} {p : String × String}
    (hp : p ∈ dictInsert d k v) : p.2 = v ∨ p.2 ∈ d.map Prod.snd := by
  unfold dictInsert at hp
  split at hp
  · obtain ⟨q, hq, he⟩ := List.mem_map.mp hp
    by_cases h1 : q.1 = k
    · left
      rw [← he]
      simp [h1]
    · right
      rw [← he]
      simp only [h1, if_false]
      exact List.mem_map_of_mem _ hq
  · rcases List.mem_append.mp hp with h | h
    · exact Or.inr (List.mem_map_of_mem _ h)
    · left
      simp only [List.mem_singleton] at h
      rw [h]

theorem optInsert_snd_mem {d : List (String × String)} {o : Option String} {v : String}
    {x : String} (hx : x ∈ (optInsert d o v).map Prod.snd) :
    x = v ∨ x ∈ d.map Prod.snd := by
  cases o with
  | none => exact Or.inr hx
  | some c =>
    obtain ⟨q, hq, he⟩ := List.mem_map.mp hx
    rcases dictInsert_snd hq with h | h
    · left
      rw [← he, h]
    · right
      rw [← he]
      exact h

theorem build_columns_to_add_snd {df : DataFrame} {s : String} {p : String × String}
    (hp : p ∈ build_columns_to_add df s) :
    p.2 = "X" ++ s ∨ p.2 = "Y" ++ s ∨ p.2 = "Z" ++ s := by
  have h0 : p.2 ∈ (build_columns_to_add df s).map Prod.snd := List.mem_map_of_mem _ hp
  unfold build_columns_to_add at h0
  rcases optInsert_snd_mem h0 with h | h
  · exact Or.inr (Or.inr h)
  rcases optInsert_snd_mem h with h | h
  · exact Or.inr (Or.inl h)
  rcases optInsert_snd_mem h with h | h
  · exact Or.inl h
  · simp at h

theorem str_cons_ne {a b : Char} (h : a ≠ b) (s t : List Char) :
    (⟨a :: s⟩ : String) ≠ ⟨b :: t⟩ := by
  intro he
  apply h
  have h2 : a :: s = b :: t := congrArg String.data he
  exact (List.cons.injEq _ _ _ _ ▸ h2 : _ ∧ _).1

theorem loadLoop_dfs (files : List FileEntry) :
    (loadLoop files).1 = files.filterMap FileEntry.content := by
  induction files with
  | nil => rfl
  | cons f rest ih =>
    cases hc : f.content with
    | none => simp [loadLoop, read_csv_safely, hc, ih]
    | some df => simp [loadLoop, read_csv_safely, hc, ih]

theorem loadLoop_names (files : List FileEntry) :
    (loadLoop files).2.1 =
      (files.filter (fun g => g.content.isSome)).map FileEntry.name := by
  induction files with
  | nil => rfl
  | cons f rest ih =>
    cases hc : f.content with
    | none => simp [loadLoop, read_csv_safely, hc, ih]
    | some df => simp [loadLoop, read_csv_safely, hc, ih]

theorem runLoop_writes (cs : List (String × List FileEntry)) :
    (runLoop cs).2 = cs.filterMap (fun c =>
      if (process_class c.1 c.2).merged_df.isEmpty then none
      else some (c.1 ++ "_merged.csv", (process_class c.1 c.2).merged_df)) := by
  induction cs with
  | nil => rfl
  | cons c rest ih =>
    cases c with
    | mk cname files =>
      simp only [runLoop, List.filterMap_cons, ih]
      split <;> rename_i hsp <;> simp [hsp]

theorem mergeLoop_st_get? (resRef : Nat) (ps : List (Nat × String)) (idx : Nat)
    (s : Store) (r : Nat) (h : r ≠ resRef) :
    (mergeLoop_st resRef ps idx s).dfs.get? r = s.dfs.get? r := by
  induction ps generalizing idx s with
  | nil => rfl
  | cons p ps ih =>
    cases p with
    | mk dref fn =>
      rw [mergeLoop_st, ih]
      exact List.get?_set_ne _ _ (fun e => h e.symm)

theorem append_head_ne {a b : Char} (h : a ≠ b) (s : String) :
    (⟨[a]⟩ : String) ++ s ≠ ⟨[b]⟩ ++ s :=
  str_cons_ne h s.data s.data

theorem foldl_setCol_names_fresh (d : List (String × String))
    (g : String → List (Option String)) (r : DataFrame)
    (hnodup : (d.map Prod.snd).Nodup)
    (hfresh : ∀ n ∈ d.map Prod.snd, n ∉ r.colNames) :
    (d.foldl (fun acc p => acc.setCol p.2 (g p.1)) r).colNames =
      r.colNames ++ d.map Prod.snd := by
  induction d generalizing r with
  | nil => simp
  | cons p d ih =>
    simp only [List.foldl_cons, List.map_cons]
    have hp : p.2 ∉ r.colNames := hfresh p.2 (by simp)
    have hnd : (d.map Prod.snd).Nodup := (List.nodup_cons.mp hnodup).2
    have hnm : p.2 ∉ d.map Prod.snd := (List.nodup_cons.mp hnodup).1
    rw [ih (r.setCol p.2 (g p.1)) hnd ?_]
    · rw [setCol_colNames_of_not_mem _ hp]
      simp
    · intro n hn
      rw [setCol_colNames_of_not_mem _ hp]
      simp only [List.mem_append, List.mem_singleton]
      rintro (h' | h')
      · exact hfresh n (by simp [hn]) h'
      · rw [h'] at hn
        exact hnm hn

theorem mkdir_mem (dirs : List String) (d : String) : d ∈ mkdir_exist_ok dirs d := by
  unfold mkdir_exist_ok
  split
  · assumption
  · exact List.mem_cons_self _ _

/-! ## Claims -/

/-- Claim C1 (code bug): for a class folder with zero CSV files,
`process_class` yields the empty merged table, but the early return at
src/merger.py:158 builds the metadata dict without the
`total_rows`/`total_columns` keys, so `print_summary` — reached by every
`run` — raises a `KeyError` instead of reporting zero totals; the run
aborts at the final summary.  A class whose files are found but all fail
to load (here one unreadable file) does carry zero totals and an empty
merged table and is summarised without raising, as the claim says. -/
theorem zero_files_summary_keyerror :
    (process_class "A" []).merged_df = DataFrame.empty ∧
    (process_class "A" []).total_rows = none ∧
    (process_class "A" []).total_columns = none ∧
    print_summary [process_class "A" []] = Except.error "KeyError: total_rows" ∧
    (run [] none [("A", [])]).2.2 = some (Except.error "KeyError: total_rows") ∧
    (process_class "B" [⟨"bad.csv", none⟩]).total_rows = some 0 ∧
    (process_class "B" [⟨"bad.csv", none⟩]).total_columns = some 0 ∧
    (process_class "B" [⟨"bad.csv", none⟩]).merged_df = DataFrame.empty ∧
    print_summary [process_class "B" [⟨"bad.csv", none⟩]] = Except.ok [("B", 0, 0)] :=
  ⟨rfl, rfl, rfl, rfl, rfl, rfl, rfl, rfl, rfl⟩

/-- Claim C2 counterexample: the filename `Ex0.csv` yields exercise
number `0`, yet the contributed column is suffixed with the positional
fallback `_2`, not `_Ex0`: Python truthiness (`if ex_num`,
src/merger.py:117) treats `0` like `None`. -/
theorem suffix_zero_cex :
    extract_ex_number "Ex0.csv" = some 0 ∧
    (merge_dataframes [⟨[("Channel", [some "0"])]⟩, ⟨[("X", [some "1"])]⟩]
      ["a.csv", "Ex0.csv"]).colNames = ["Channel", "X_2"] :=
  ⟨by decide, by decide⟩

/-- Claim C2 (amended): a subsequent table at position `idx` contributes
columns with suffix `_Ex<N>` when its filename yields a nonzero exercise
number `N`, and with the positional fallback `_<idx>` when the filename
yields no exercise number or yields `0`; every column of the merge-step
result is either an old column or one of `X`/`Y`/`Z` followed by that
suffix. -/
theorem suffix_rule (fn : String) (idx : Nat) :
    (∀ n, extract_ex_number fn = some n → n ≠ 0 →
      suffixFor fn idx = "_Ex" ++ Nat.repr n) ∧
    (extract_ex_number fn = none → suffixFor fn idx = "_" ++ Nat.repr idx) ∧
    (extract_ex_number fn = some 0 → suffixFor fn idx = "_" ++ Nat.repr idx) ∧
    (∀ (result df : DataFrame), ∀ name ∈ (mergeStep df fn idx result).colNames,
      name ∈ result.colNames ∨ name = "X" ++ suffixFor fn idx ∨
      name = "Y" ++ suffixFor fn idx ∨ name = "Z" ++ suffixFor fn idx) := by
  refine ⟨?_, ?_, ?_, ?_⟩
  · intro n hn h0
    simp [suffixFor, hn, h0]
  · intro hn
    simp [suffixFor, hn]
  · intro hn
    simp [suffixFor, hn]
  · intro result df name hname
    rcases foldl_setCol_names_sub _ _ _ _ hname with h | ⟨p, hp, he⟩
    · exact Or.inl h
    · rcases build_columns_to_add_snd hp with h | h | h
      · exact Or.inr (Or.inl (he.trans h))
      · exact Or.inr (Or.inr (Or.inl (he.trans h)))
      · exact Or.inr (Or.inr (Or.inr (he.trans h)))

theorem suffix_rule_witness :
    suffixFor "Ex3_data.csv" 5 = "_Ex" ++ Nat.repr 3 :=
  (suffix_rule "Ex3_data.csv" 5).1 3 (by decide) (by decide)

/-- Claim C3: when the first table has a channel-role column, the merged
table's row count equals the first table's row count, whatever the
subsequent tables contain; and assigned columns are copied by row
position — the stored values are the source values aligned (truncated or
NaN-padded) to the result's row count. -/
theorem merge_nRows_eq_first (first : DataFrame) (rest : List DataFrame)
    (fns : List String)
    (h : (find_matching_column "channel" first.colNames).isSome = true) :
    (merge_dataframes (first :: rest) fns).nRows = first.nRows ∧
    ∀ (df : DataFrame) (n : String) (v : List (Option String)),
      (df.setCol n v).getCol n = alignTo df.nRows v := by
  constructor
  · obtain ⟨c, hc⟩ := Option.isSome_iff_exists.mp h
    simp [merge_dataframes, hc, mergeLoop_nRows]
  · exact getCol_setCol

theorem merge_nRows_eq_first_witness :
    (merge_dataframes [⟨[("Channel", [some "0", some "1"])]⟩, ⟨[("X", [some "9"])]⟩]
      ["a.csv", "b.csv"]).nRows =
      (⟨[("Channel", [some "0", some "1"])]⟩ : DataFrame).nRows :=
  (merge_nRows_eq_first _ _ _ (by decide)).1

/-- Claim C4: the merge yields the empty table (and, being a total
function, throws nothing) when the sequence is empty or when the first
table's columns contain no channel-role match. -/
theorem merge_empty_cases (dfs : List DataFrame) (fns : List String)
    (h : dfs = [] ∨ ∃ first rest, dfs = first :: rest ∧
      find_matching_column "channel" first.colNames = none) :
    merge_dataframes dfs fns = DataFrame.empty := by
  rcases h with h | ⟨first, rest, hd, hc⟩
  · rw [h]
    rfl
  · rw [hd]
    simp [merge_dataframes, hc]

theorem merge_empty_cases_witness :
    merge_dataframes [] ["f.csv"] = DataFrame.empty :=
  merge_empty_cases [] ["f.csv"] (Or.inl rfl)

/-- Claim C5 counterexample: a single-table sequence whose table has no
channel-role column merges to the empty table, not to a copy of that
table. -/
theorem single_merge_cex :
    merge_dataframes [⟨[("alpha", [some "1"])]⟩] ["f.csv"] = DataFrame.empty ∧
      (⟨[("alpha", [some "1"])]⟩ : DataFrame) ≠ DataFrame.empty :=
  ⟨by decide, by decide⟩

/-- Claim C5 (amended): merging a single-table sequence whose table has
a channel-role column yields a result equal to a copy of that table —
the same columns, no additions, the same row count. -/
theorem single_merge_id (d : DataFrame) (fns : List String)
    (h : (find_matching_column "channel" d.colNames).isSome = true) :
    merge_dataframes [d] fns = d := by
  obtain ⟨c, hc⟩ := Option.isSome_iff_exists.mp h
  simp [merge_dataframes, hc, mergeLoop]

theorem single_merge_id_witness :
    merge_dataframes [⟨[("Channel", [some "1"])]⟩] ["f.csv"] =
      ⟨[("Channel", [some "1"])]⟩ :=
  single_merge_id _ _ (by decide)

/-- Claim C6: reading a file that fails to parse returns the empty-table
tombstone with the failure flag and propagates nothing, and
`process_class` merges exactly the successfully loaded tables (in order,
with their names) — failed files are excluded and do not prevent the
rest of the class from being merged. -/
theorem failed_reads_excluded (f : FileEntry) (cname : String)
    (files : List FileEntry) (h : f.content = none) :
    read_csv_safely f = (DataFrame.empty, false) ∧
    (process_class cname files).merged_df =
      (if files.filterMap FileEntry.content = [] then DataFrame.empty
       else merge_dataframes (files.filterMap FileEntry.content)
         ((files.filter (fun g => g.content.isSome)).map FileEntry.name)) := by
  constructor
  · simp [read_csv_safely, h]
  · by_cases hf : files.isEmpty
    · have he : files = [] := List.isEmpty_iff.mp hf
      subst he
      simp [process_class]
    · rcases he : files.filterMap FileEntry.content with _ | ⟨d, ds⟩
      · simp [process_class, hf, loadLoop_dfs, loadLoop_names, he]
      · simp [process_class, hf, loadLoop_dfs, loadLoop_names, he]

theorem failed_reads_excluded_witness :
    read_csv_safely ⟨"bad.csv", none⟩ = (DataFrame.empty, false) ∧
    (process_class "A"
        [⟨"good.csv", some ⟨[("Channel", [some "1"])]⟩⟩, ⟨"bad.csv", none⟩]).merged_df =
      (if ([⟨"good.csv", some ⟨[("Channel", [some "1"])]⟩⟩,
              (⟨"bad.csv", none⟩ : FileEntry)].filterMap FileEntry.content) = []
       then DataFrame.empty
       else merge_dataframes
         ([⟨"good.csv", some ⟨[("Channel", [some "1"])]⟩⟩,
             (⟨"bad.csv", none⟩ : FileEntry)].filterMap FileEntry.content)
         (([⟨"good.csv", some ⟨[("Channel", [some "1"])]⟩⟩,
              (⟨"bad.csv", none⟩ : FileEntry)].filter
            (fun g => g.content.isSome)).map FileEntry.name)) :=
  failed_reads_excluded ⟨"bad.csv", none⟩ "A"
    [⟨"good.csv", some ⟨[("Channel", [some "1"])]⟩⟩, ⟨"bad.csv", none⟩] rfl

/-- Claim C7 counterexample: in the second table the single column
`xyz` matches all three roles, yet the merge adds only one new column
(`Z_2`) instead of one per role: the `columns_to_add` dict is keyed by
the source column name, so the later role's rename overwrites the
earlier ones (src/merger.py:125-131). -/
theorem role_columns_cex :
    (find_matching_column "x" (⟨[("xyz", [some "1"])]⟩ : DataFrame).colNames).isSome = true ∧
    (find_matching_column "y" (⟨[("xyz", [some "1"])]⟩ : DataFrame).colNames).isSome = true ∧
    (find_matching_column "z" (⟨[("xyz", [some "1"])]⟩ : DataFrame).colNames).isSome = true ∧
    (merge_dataframes [⟨[("Channel", [some "0"])]⟩, ⟨[("xyz", [some "1"])]⟩]
      ["a.csv", "b.csv"]).colNames = ["Channel", "Z_2"] :=
  ⟨by decide, by decide, by decide, by decide⟩

/-- Claim C7 (amended): when the three roles match pairwise distinct
columns of the subsequent table and the derived names are not already
columns of the result, exactly one new column is appended per role
found, named `X`/`Y`/`Z` followed by the derived suffix, in that order;
a role with no matching column contributes nothing and causes no
error.  (Coincident role matches collapse to the last role, and a
colliding derived name overwrites in place.) -/
theorem role_columns_add (df : DataFrame) (fn : String) (idx : Nat) (result : DataFrame)
    (hxy : find_matching_column "x" df.colNames = find_matching_column "y" df.colNames →
      find_matching_column "x" df.colNames = none)
    (hxz : find_matching_column "x" df.colNames = find_matching_column "z" df.colNames →
      find_matching_column "x" df.colNames = none)
    (hyz : find_matching_column "y" df.colNames = find_matching_column "z" df.colNames →
      find_matching_column "y" df.colNames = none)
    (hX : "X" ++ suffixFor fn idx ∉ result.colNames)
    (hY : "Y" ++ suffixFor fn idx ∉ result.colNames)
    (hZ : "Z" ++ suffixFor fn idx ∉ result.colNames) :
    (mergeStep df fn idx result).colNames =
      result.colNames ++
      (match find_matching_column "x" df.colNames with
       | some _ => ["X" ++ suffixFor fn idx]
       | none => []) ++
      (match find_matching_column "y" df.colNames with
       | some _ => ["Y" ++ suffixFor fn idx]
       | none => []) ++
      (match find_matching_column "z" df.colNames with
       | some _ => ["Z" ++ suffixFor fn idx]
       | none => []) := by
  have nXY : ("X" ++ suffixFor fn idx) ≠ "Y" ++ suffixFor fn idx :=
    append_head_ne (by decide) _
  have nXZ : ("X" ++ suffixFor fn idx) ≠ "Z" ++ suffixFor fn idx :=
    append_head_ne (by decide) _
  have nYZ : ("Y" ++ suffixFor fn idx) ≠ "Z" ++ suffixFor fn idx :=
    append_head_ne (by decide) _
  rcases hx : find_matching_column "x" df.colNames with _ | cx <;>
    rcases hy : find_matching_column "y" df.colNames with _ | cy <;>
      rcases hz : find_matching_column "z" df.colNames with _ | cz
  · have hb : build_columns_to_add df (suffixFor fn idx) = [] := by
      simp [build_columns_to_add, hx, hy, hz, optInsert]
    rw [mergeStep, hb]
    simp
  · have hb : build_columns_to_add df (suffixFor fn idx) =
        [(cz, "Z" ++ suffixFor fn idx)] := by
      simp [build_columns_to_add, hx, hy, hz, optInsert, dictInsert]
    have hfr : ∀ n ∈ ([(cz, "Z" ++ suffixFor fn idx)]).map Prod.snd,
        n ∉ result.colNames := by
      intro n hn
      simp only [List.map_cons, List.map_nil, List.mem_singleton] at hn
      rw [hn]
      exact hZ
    rw [mergeStep, hb, foldl_setCol_names_fresh _ _ _ (by simp) hfr]
    simp
  · have hb : build_columns_to_add df (suffixFor fn idx) =
        [(cy, "Y" ++ suffixFor fn idx)] := by
      simp [build_columns_to_add, hx, hy, hz, optInsert, dictInsert]
    have hfr : ∀ n ∈ ([(cy, "Y" ++ suffixFor fn idx)]).map Prod.snd,
        n ∉ result.colNames := by
      intro n hn
      simp only [List.map_cons, List.map_nil, List.mem_singleton] at hn
      rw [hn]
      exact hY
    rw [mergeStep, hb, foldl_setCol_names_fresh _ _ _ (by simp) hfr]
    simp
  · have ne3 : cy ≠ cz := by
      intro e
      rw [hy, hz, e] at hyz
      simpa using hyz rfl
    have hb : build_columns_to_add df (suffixFor fn idx) =
        [(cy, "Y" ++ suffixFor fn idx), (cz, "Z" ++ suffixFor fn idx)] := by
      simp [build_columns_to_add, hx, hy, hz, optInsert, dictInsert, ne3]
    have hfr : ∀ n ∈ ([(cy, "Y" ++ suffixFor fn idx),
        (cz, "Z" ++ suffixFor fn idx)]).map Prod.snd, n ∉ result.colNames := by
      intro n hn
      simp only [List.map_cons, List.map_nil, List.mem_cons, List.mem_singleton,
        List.not_mem_nil, or_false] at hn
      rcases hn with hn | hn
      · rw [hn]
        exact hY
      · rw [hn]
        exact hZ
    rw [mergeStep, hb, foldl_setCol_names_fresh _ _ _ (by simp [nYZ]) hfr]
    simp
  · have hb : build_columns_to_add df (suffixFor fn idx) =
        [(cx, "X" ++ suffixFor fn idx)] := by
      simp [build_columns_to_add, hx, hy, hz, optInsert, dictInsert]
    have hfr : ∀ n ∈ ([(cx, "X" ++ suffixFor fn idx)]).map Prod.snd,
        n ∉ result.colNames := by
      intro n hn
      simp only [List.map_cons, List.map_nil, List.mem_singleton] at hn
      rw [hn]
      exact hX
    rw [mergeStep, hb, foldl_setCol_names_fresh _ _ _ (by simp) hfr]
    simp
  · have ne2 : cx ≠ cz := by
      intro e
      rw [hx, hz, e] at hxz
      simpa using hxz rfl
    have hb : build_columns_to_add df (suffixFor fn idx) =
        [(cx, "X" ++ suffixFor fn idx), (cz, "Z" ++ suffixFor fn idx)] := by
      simp [build_columns_to_add, hx, hy, hz, optInsert, dictInsert, ne2]
    have hfr : ∀ n ∈ ([(cx, "X" ++ suffixFor fn idx),
        (cz, "Z" ++ suffixFor fn idx)]).map Prod.snd, n ∉ result.colNames := by
      intro n hn
      simp only [List.map_cons, List.map_nil, List.mem_cons, List.mem_singleton,
        List.not_mem_nil, or_false] at hn
      rcases hn with hn | hn
      · rw [hn]
        exact hX
      · rw [hn]
        exact hZ
    rw [mergeStep, hb, foldl_setCol_names_fresh _ _ _ (by simp [nXZ]) hfr]
    simp
  · have ne1 : cx ≠ cy := by
      intro e
      rw [hx, hy, e] at hxy
      simpa using hxy rfl
    have hb : build_columns_to_add df (suffixFor fn idx) =
        [(cx, "X" ++ suffixFor fn idx), (cy, "Y" ++ suffixFor fn idx)] := by
      simp [build_columns_to_add, hx, hy, hz, optInsert, dictInsert, ne1]
    have hfr : ∀ n ∈ ([(cx, "X" ++ suffixFor fn idx),
        (cy, "Y" ++ suffixFor fn idx)]).map Prod.snd, n ∉ result.colNames := by
      intro n hn
      simp only [List.map_cons, List.map_nil, List.mem_cons, List.mem_singleton,
        List.not_mem_nil, or_false] at hn
      rcases hn with hn | hn
      · rw [hn]
        exact hX
      · rw [hn]
        exact hY
    rw [mergeStep, hb, foldl_setCol_names_fresh _ _ _ (by simp [nXY]) hfr]
    simp
  · have ne1 : cx ≠ cy := by
      intro e
      rw [hx, hy, e] at hxy
      simpa using hxy rfl
    have ne2 : cx ≠ cz := by
      intro e
      rw [hx, hz, e] at hxz
      simpa using hxz rfl
    have ne3 : cy ≠ cz := by
      intro e
      rw [hy, hz, e] at hyz
      simpa using hyz rfl
    have hb : build_columns_to_add df (suffixFor fn idx) =
        [(cx, "X" ++ suffixFor fn idx), (cy, "Y" ++ suffixFor fn idx),
          (cz, "Z" ++ suffixFor fn idx)] := by
      simp [build_columns_to_add, hx, hy, hz, optInsert, dictInsert, ne1, ne2, ne3]
    have hfr : ∀ n ∈ ([(cx, "X" ++ suffixFor fn idx), (cy, "Y" ++ suffixFor fn idx),
        (cz, "Z" ++ suffixFor fn idx)]).map Prod.snd, n ∉ result.colNames := by
      intro n hn
      simp only [List.map_cons, List.map_nil, List.mem_cons, List.mem_singleton,
        List.not_mem_nil, or_false] at hn
      rcases hn with hn | hn | hn
      · rw [hn]
        exact hX
      · rw [hn]
        exact hY
      · rw [hn]
        exact hZ
    rw [mergeStep, hb, foldl_setCol_names_fresh _ _ _ (by simp [nXY, nXZ, nYZ]) hfr]
    simp

theorem role_columns_add_witness :
    (mergeStep ⟨[("X", [some "1"]), ("Y", [some "2"]), ("Z", [some "3"])]⟩
        "Ex7.csv" 2 ⟨[("Channel", [some "0"])]⟩).colNames =
      (⟨[("Channel", [some "0"])]⟩ : DataFrame).colNames ++
      (match find_matching_column "x"
          (⟨[("X", [some "1"]), ("Y", [some "2"]), ("Z", [some "3"])]⟩ : DataFrame).colNames with
       | some _ => ["X" ++ suffixFor "Ex7.csv" 2]
       | none => []) ++
      (match find_matching_column "y"
          (⟨[("X", [some "1"]), ("Y", [some "2"]), ("Z", [some "3"])]⟩ : DataFrame).colNames with
       | some _ => ["Y" ++ suffixFor "Ex7.csv" 2]
       | none => []) ++
      (match find_matching_column "z"
          (⟨[("X", [some "1"]), ("Y", [some "2"]), ("Z", [some "3"])]⟩ : DataFrame).colNames with
       | some _ => ["Z" ++ suffixFor "Ex7.csv" 2]
       | none => []) :=
  role_columns_add ⟨[("X", [some "1"]), ("Y", [some "2"]), ("Z", [some "3"])]⟩
    "Ex7.csv" 2 ⟨[("Channel", [some "0"])]⟩
    (by decide) (by decide) (by decide) (by decide) (by decide) (by decide)

/-- Claim C8: construction fails with the root-not-found error exactly
when the root path is missing, with the root-not-a-directory error
exactly when it exists but is not a directory, and succeeds for an
existing directory; the result depends only on the root path's kind and
not on the class folders, so the validation happens at initialization,
before any class folder is scanned. -/
theorem init_validates_root_only (fs : Filesystem) :
    CSVMerger_init fs =
      (match fs.rootKind with
       | PathKind.missing => Except.error InitError.rootNotFound
       | PathKind.file => Except.error InitError.rootNotADirectory
       | PathKind.dir => Except.ok ()) ∧
    CSVMerger_init fs = CSVMerger_init ⟨fs.rootKind, []⟩ := by
  cases fs with
  | mk k cls => cases k <;> exact ⟨rfl, rfl⟩

/-- Claim C9: the run writes an output file exactly for the classes (in
processing order) whose merged table is non-empty, each named
`<class>_merged.csv`, and after the run the output directory exists
(created if absent; `mkdir(exist_ok=True)` runs before anything else). -/
theorem run_writes_nonempty (dirs : List String) (od : Option String)
    (classes : List (String × List FileEntry)) :
    (run dirs od classes).2.1 = (sortClasses classes).filterMap (fun c =>
      if (process_class c.1 c.2).merged_df.isEmpty then none
      else some (c.1 ++ "_merged.csv", (process_class c.1 c.2).merged_df)) ∧
    od.getD "outputs" ∈ (run dirs od classes).1 := by
  constructor
  · by_cases hc : classes.isEmpty
    · have he : classes = [] := List.isEmpty_iff.mp hc
      subst he
      simp [run, sortClasses]
    · simp [run, hc, runLoop_writes]
  · by_cases hc : classes.isEmpty <;> simp [run, hc, mkdir_mem]

/-- Claim C10: the merge never mutates its inputs.  In the store-passing
embedding, `merge_dataframes` allocates its result (a copy of the first
table, or a fresh empty frame) and mutates only that fresh object, so
every pre-existing object — the first table included — is unchanged
after the merge. -/
theorem merge_st_frame (store : Store) (refs : List Nat) (fns : List String)
    (r : Nat) (h : r < store.dfs.length) :
    ((merge_dataframes_st store refs fns).1).dfs.get? r = store.dfs.get? r := by
  have hne : r ≠ store.dfs.length := Nat.ne_of_lt h
  cases refs with
  | nil =>
    simp only [merge_dataframes_st, Store.alloc]
    exact List.get?_append h
  | cons r0 rrest =>
    cases hc : find_matching_column "channel" (store.get r0).colNames with
    | none =>
      simp only [merge_dataframes_st, hc, Store.alloc]
      exact List.get?_append h
    | some c =>
      simp only [merge_dataframes_st, hc, Store.alloc]
      rw [mergeLoop_st_get? _ _ _ _ _ hne]
      exact List.get?_append h

theorem merge_st_frame_witness :
    ((merge_dataframes_st ⟨[⟨[("Channel", [some "0"])]⟩, ⟨[("X", [some "1"])]⟩]⟩
        [0, 1] ["a.csv", "b.csv"]).1).dfs.get? 0 =
      (⟨[⟨[("Channel", [some "0"])]⟩, ⟨[("X", [some "1"])]⟩]⟩ : Store).dfs.get? 0 :=
  merge_st_frame ⟨[⟨[("Channel", [some "0"])]⟩, ⟨[("X", [some "1"])]⟩]⟩
    [0, 1] ["a.csv", "b.csv"] 0 (by decide)

end Merger

